import Mathlib

/-!
Shallow embedding of the StudyBase quiz services
(`src/services/quizGenerationService.js`, `src/services/quizEvaluationService.js`,
the quiz persistence service and the quiz-taking component), with theorems
settling the claims about parsing, evaluation, validation and the quiz
status lifecycle.

Strings are modelled as Lean `String` / `List Char`.  JavaScript regular
expressions used by the services are embedded operationally (backtracking
order preserved).  JavaScript `NaN` results are modelled as `Option.none`.
All recursions are structural (indices / fuel) so that concrete inputs can
be evaluated by `decide`.
-/

namespace StudyBase

/-- JS whitespace class (`\s`, `String.prototype.trim`): the characters the
services' inputs can realistically contain. -/
def isJsWs (c : Char) : Bool :=
  c = ' ' || c = '\t' || c = '\n' || c = '\r' || c = '\x0b' || c = '\x0c' ||
  c = '\u00A0' || c = '\uFEFF'

/-- `String.prototype.trim` on a character list. -/
def jsTrim (l : List Char) : List Char :=
  ((l.dropWhile isJsWs).reverse.dropWhile isJsWs).reverse

/-- `String.prototype.split('\n')`. -/
def splitNl : List Char → List (List Char)
  | [] => [[]]
  | c :: t =>
    if c = '\n' then [] :: splitNl t
    else
      match splitNl t with
      | [] => [[c]]
      | h :: r => (c :: h) :: r

/-- `String.prototype.startsWith lit` on character lists (first argument is
the literal). -/
def startsWithL : List Char → List Char → Bool
  | [], _ => true
  | _ :: _, [] => false
  | a :: as, b :: bs => a = b && startsWithL as bs

/-- ASCII `String.prototype.toLowerCase`. -/
def toLowerL (l : List Char) : List Char := l.map Char.toLower

/-- Numeric value of a decimal digit run (the effect of `parseInt` on a
pure digit string). -/
def digitsToNat (l : List Char) : Nat :=
  l.foldl (fun n c => 10 * n + (c.toNat - 48)) 0

/-- `String.prototype.split(/\s+/)`, fuelled (fuel ≥ length suffices):
maximal whitespace runs separate tokens, with an empty leading/trailing
token when the string starts/ends with whitespace, and `[""]` for `""`. -/
def wsSplitF : Nat → List Char → List (List Char)
  | 0, _ => [[]]
  | _, [] => [[]]
  | f + 1, c :: t =>
    if isJsWs c then [] :: wsSplitF f (t.dropWhile isJsWs)
    else
      match wsSplitF f t with
      | [] => [[c]]
      | h :: r => (c :: h) :: r

/-- Result of a similarity computation.  `similarityScore = none` models a
JavaScript `NaN` score. -/
structure SimResult where
  isCorrect : Bool
  similarityScore : Option Nat
  deriving DecidableEq

/-- `calculateBasicSimilarity(userAnswer, modelAnswer, threshold)` from
`quizEvaluationService.js`: lexical word-overlap fallback.  Both answers are
lower-cased, split on whitespace, filtered to tokens longer than 2
characters; the score is `Math.round(common / max(|u|,|m|) * 100)`
(modelled by exact rational rounding, `none` when `max = 0`, i.e. the JS
`0/0 = NaN` case); `isCorrect` is `score >= threshold` (false on `NaN`). -/
def calculateBasicSimilarity (userAnswer modelAnswer : String) (threshold : Nat) :
    SimResult :=
  let ul := toLowerL userAnswer.data
  let ml := toLowerL modelAnswer.data
  let userWords := (wsSplitF ul.length ul).filter (fun w => decide (2 < w.length))
  let modelWords := (wsSplitF ml.length ml).filter (fun w => decide (2 < w.length))
  let commonWords := userWords.filter (fun w => modelWords.contains w)
  let b := max userWords.length modelWords.length
  if b = 0 then ⟨false, none⟩
  else
    let score := (200 * commonWords.length + b) / (2 * b)
    ⟨decide (threshold ≤ score), some score⟩

/-- State of `parseSimilarityResponse`'s line loop. -/
structure SimParse where
  isCorrect : Bool
  similarityScore : Nat
  deriving DecidableEq

/-- The literal `"Similarity Score:"` (17 characters). -/
def scoreLit : List Char := "Similarity Score:".data

/-- The literal `"Is Correct:"` (11 characters). -/
def correctLit : List Char := "Is Correct:".data

/-- Leftmost match of `/Similarity Score:\s*(\d+)/` in a line: scan for the
literal, skip whitespace, require at least one digit; on failure resume the
scan one character further. -/
def searchScoreL : Nat → List Char → Option Nat
  | 0, _ => none
  | _, [] => none
  | f + 1, l@(_ :: t) =>
    if startsWithL scoreLit l then
      let r := (l.drop 17).dropWhile isJsWs
      let d := r.takeWhile Char.isDigit
      if d.isEmpty then searchScoreL f t else some (digitsToNat d)
    else searchScoreL f t

/-- Case-insensitive literal test for `startsWithL`. -/
def startsWithCI (lit l : List Char) : Bool :=
  startsWithL (toLowerL lit) (toLowerL l)

/-- Leftmost match of `/Is Correct:\s*(YES|NO)/i` in a line (alternation
order `YES` before `NO`, no word boundary). -/
def searchVerdictL : Nat → List Char → Option Bool
  | 0, _ => none
  | _, [] => none
  | f + 1, l@(_ :: t) =>
    if startsWithCI correctLit l then
      let r := (l.drop 11).dropWhile isJsWs
      if startsWithCI "YES".data r then some true
      else if startsWithCI "NO".data r then some false
      else searchVerdictL f t
    else searchVerdictL f t

/-- Score extracted from one (trimmed) line, guarded by the code's
`line.startsWith('Similarity Score:')` test. -/
def simScoreLine (l : List Char) : Option Nat :=
  if startsWithL scoreLit l then searchScoreL l.length l else none

/-- Verdict extracted from one (trimmed) line: reachable only through the
`else if (line.startsWith('Is Correct:'))` branch. -/
def simVerdictLine (l : List Char) : Option Bool :=
  if startsWithL scoreLit l then none
  else if startsWithL correctLit l then searchVerdictL l.length l
  else none

/-- One iteration of `parseSimilarityResponse`'s `for (const line of lines)`
loop. -/
def processSimLine (st : SimParse) (l : List Char) : SimParse :=
  match simScoreLine l with
  | some v => { st with similarityScore := v }
  | none =>
    match simVerdictLine l with
    | some b => { st with isCorrect := b }
    | none => st

/-- `parseSimilarityResponse(llmResponse, threshold)`: split on newlines,
trim each line, fold the line loop, then apply the derivation
`if (similarityScore > 0 && !isCorrect) isCorrect = similarityScore >= threshold`. -/
def parseSimilarityResponse (llmResponse : String) (threshold : Nat) : SimParse :=
  let lines := (splitNl llmResponse.data).map jsTrim
  let st := lines.foldl processSimLine ⟨false, 0⟩
  if 0 < st.similarityScore ∧ st.isCorrect = false then
    ⟨decide (threshold ≤ st.similarityScore), st.similarityScore⟩
  else st

/-- `calculateSimilarityWithLLM(userAnswer, modelAnswer, question, threshold)`
with the completion-service interaction abstracted: `Except.ok reply` is a
successful HTTP call returning `reply`, `Except.error ()` is any failure
(missing API key, network error, non-ok status, `data.error`), which the
`catch` turns into the lexical fallback. -/
def calculateSimilarityWithLLM (userAnswer modelAnswer : String) (threshold : Nat)
    (reply : Except Unit String) : SimResult :=
  match reply with
  | .error _ => calculateBasicSimilarity userAnswer modelAnswer threshold
  | .ok r =>
    let p := parseSimilarityResponse r threshold
    ⟨p.isCorrect, some p.similarityScore⟩

/-! ### The options regex of `parseQuizResponse`

`/(\d+)\)\s*([^0-9]+?)(?=\s*\d+\)|$)/g`, embedded operationally.  The
capture `[^0-9]+?` is lazy and cannot contain a digit; the engine first
tries the greedy `\s*`, then shrinks it one character at a time. -/

/-- The lookahead `(?=\s*\d+\)|$)`: either end of input, or optional
whitespace followed by a digit run and `)`.  (Both sides are deterministic:
shrinking `\s*` or `\d+` only exposes a non-matching character.) -/
def lookNextOption (s : List Char) : Bool :=
  match s with
  | [] => true
  | _ =>
    let s' := s.dropWhile isJsWs
    let d := s'.takeWhile Char.isDigit
    !d.isEmpty && ((s'.drop d.length).head? == some ')')

/-- Lazy expansion of `([^0-9]+?)` at the current position: the least
`m ≥ 1` such that the first `m` characters are non-digits and the lookahead
holds after them; `none` when a digit or the end is reached first. -/
def capLen : List Char → Nat → Option Nat
  | [], _ => none
  | c :: t, acc =>
    if c.isDigit then none
    else if lookNextOption t then some (acc + 1)
    else capLen t (acc + 1)

/-- Backtracking over `\s*`: try consuming `k` whitespace characters, from
the greedy maximum down to zero; returns the total number of characters
consumed after the `)`. -/
def tryAfterParen (rest : List Char) : Nat → Option Nat
  | 0 => capLen rest 0
  | k + 1 =>
    match capLen (rest.drop (k + 1)) 0 with
    | some m => some (k + 1 + m)
    | none => tryAfterParen rest k

/-- One attempt of the options regex at the head of `l`: on success the
length of the whole match (`\d+` `)` `\s*` capture). -/
def tryOptionMatch (l : List Char) : Option Nat :=
  let d := l.takeWhile Char.isDigit
  if d.isEmpty then none
  else
    match (l.drop d.length).head? with
    | some ')' =>
      let rest := l.drop (d.length + 1)
      match tryAfterParen rest (rest.takeWhile isJsWs).length with
      | some consumed => some (d.length + 1 + consumed)
      | none => none
    | _ => none

/-- Global (`/g`) matching: advance one character on failure, consume the
match on success.  Fuel ≥ length suffices (every match is nonempty). -/
def optMatchesF : Nat → List Char → List (List Char)
  | 0, _ => []
  | _, [] => []
  | f + 1, l@(_ :: t) =>
    match tryOptionMatch l with
    | some len => l.take len :: optMatchesF f (l.drop len)
    | none => optMatchesF f t

/-- All matches of the options regex in a string (the `optionsText.match`
call; an empty list plays the role of the `null` result). -/
def optionRegexGlobal (l : List Char) : List (List Char) := optMatchesF l.length l

/-- Group 2 of the inner regex `/(\d+)\)\s*(.+)/`: `\s*` starts greedy at
`j` consumed whitespace characters and gives characters back until `.+`
can match at least one non-line-terminator character. -/
def innerGrp2At (after : List Char) (j : Nat) : Option (List Char) :=
  let s2 := after.drop j
  match s2.head? with
  | some c =>
    if c ≠ '\n' ∧ c ≠ '\r' then
      some (s2.takeWhile (fun ch => ch != '\n' && ch != '\r'))
    else none
  | none => none

/-- Backtracking of `\s*` in the inner regex, from `j` whitespace
characters down to zero. -/
def innerGrp2 (after : List Char) : Nat → Option (List Char)
  | 0 => innerGrp2At after 0
  | j + 1 =>
    match innerGrp2At after (j + 1) with
    | some g => some g
    | none => innerGrp2 after j

/-- Leftmost match of the inner regex `/(\d+)\)\s*(.+)/` in a full outer
match: returns the digit key (group 1) and raw group 2. -/
def innerScan : Nat → List Char → Option (List Char × List Char)
  | 0, _ => none
  | _, [] => none
  | f + 1, l@(_ :: t) =>
    let d := l.takeWhile Char.isDigit
    if !d.isEmpty && ((l.drop d.length).head? == some ')') then
      let after := l.drop (d.length + 1)
      match innerGrp2 after (after.takeWhile isJsWs).length with
      | some g => some (d, g)
      | none => innerScan f t
    else innerScan f t

/-- `match.match(/(\d+)\)\s*(.+)/)` applied to one outer match, producing
the `(key, value.trim())` pair written into `currentQuestion.options`. -/
def innerOption (m : List Char) : Option (String × String) :=
  (innerScan m.length m).map fun p => (String.mk p.1, String.mk (jsTrim p.2))

/-- JS object assignment `options[key] = value`: replace an existing key in
place, otherwise append. -/
def insertOpt : List (String × String) → String → String → List (String × String)
  | [], k, v => [(k, v)]
  | (k', v') :: t, k, v =>
    if k' = k then (k', v) :: t else (k', v') :: insertOpt t k v

/-- Fold of the `optionMatches.forEach` assignments. -/
def applyOpts (opts : List (String × String)) (ps : List (String × String)) :
    List (String × String) :=
  ps.foldl (fun acc p => insertOpt acc p.1 p.2) opts

/-- `options[key]` lookup. -/
def lookupOpt (opts : List (String × String)) (k : String) : Option String :=
  (opts.find? (fun p => p.1 == k)).map (fun p => p.2)

/-! ### `parseQuizResponse` -/

/-- A structured question as built by `parseQuizResponse`.
`options = none` models the JS `null` of SAQ/LAQ questions;
`correctOptionNumber = none` models `null`. -/
structure Question where
  type : String
  questionNumber : Nat
  questionText : String
  options : Option (List (String × String))
  correctAnswer : String
  correctOptionNumber : Option Nat
  explanation : String
  marks : Nat
  deriving DecidableEq

/-- Quiz configuration (counts as JS numbers, modelled as integers). -/
structure QuizConfig where
  quizName : String
  difficulty : String
  totalMcqs : Int
  totalSaqs : Int
  totalLaqs : Int
  deriving DecidableEq

/-- Loop state of `parseQuizResponse`. -/
structure PState where
  questions : List Question
  current : Option Question
  qnum : Nat
  mcq : Nat
  saq : Nat
  laq : Nat
  deriving DecidableEq

/-- A freshly opened question (the object literal in each marker branch). -/
def openQuestion (ty : String) (n : Nat) (text : List Char)
    (opts : Option (List (String × String))) (marks : Nat) : Question :=
  { type := ty, questionNumber := n, questionText := String.mk (jsTrim text),
    options := opts, correctAnswer := "", correctOptionNumber := none,
    explanation := "", marks := marks }

/-- One iteration of the line loop of `parseQuizResponse`.  `Except.error`
models the JS `TypeError` thrown by `currentQuestion.options[...] = ...`
when `options` is `null` (an `Options:` line inside an SAQ/LAQ block with at
least one regex match), which the surrounding `try` turns into `[]`. -/
def processQuizLine (cfg : QuizConfig) (st : PState) (line : List Char) :
    Except Unit PState :=
  if startsWithL "MCQ:".data line ∧ (st.mcq : Int) < cfg.totalMcqs then
    .ok { questions := st.questions ++ st.current.toList,
          current := some (openQuestion "mcq" st.qnum (line.drop 4) (some []) 1),
          qnum := st.qnum + 1, mcq := st.mcq + 1, saq := st.saq, laq := st.laq }
  else if startsWithL "SAQ:".data line ∧ (st.saq : Int) < cfg.totalSaqs then
    .ok { questions := st.questions ++ st.current.toList,
          current := some (openQuestion "saq" st.qnum (line.drop 4) none 3),
          qnum := st.qnum + 1, mcq := st.mcq, saq := st.saq + 1, laq := st.laq }
  else if startsWithL "LAQ:".data line ∧ (st.laq : Int) < cfg.totalLaqs then
    .ok { questions := st.questions ++ st.current.toList,
          current := some (openQuestion "laq" st.qnum (line.drop 4) none 5),
          qnum := st.qnum + 1, mcq := st.mcq, saq := st.saq, laq := st.laq + 1 }
  else
    match st.current with
    | none => .ok st
    | some q =>
      if startsWithL "Options:".data line then
        if ((optionRegexGlobal (jsTrim (line.drop 8))).filterMap innerOption).isEmpty then
          .ok st
        else
          match q.options with
          | none => .error ()
          | some opts =>
            .ok { st with current := some { q with
              options := some (applyOpts opts
                ((optionRegexGlobal (jsTrim (line.drop 8))).filterMap innerOption)) } }
      else if startsWithL "Answer:".data line then
        if q.type = "mcq" then
          if ((jsTrim (line.drop 7)).takeWhile Char.isDigit).isEmpty then
            .ok { st with current := some { q with
              correctAnswer := String.mk (jsTrim (line.drop 7)) } }
          else
            .ok { st with current := some { q with
              correctOptionNumber :=
                some (digitsToNat ((jsTrim (line.drop 7)).takeWhile Char.isDigit)),
              correctAnswer :=
                match lookupOpt (q.options.getD [])
                    (String.mk ((jsTrim (line.drop 7)).takeWhile Char.isDigit)) with
                | some v => if v = "" then String.mk (jsTrim (line.drop 7)) else v
                | none => String.mk (jsTrim (line.drop 7)) } }
        else
          .ok { st with current := some { q with
            correctAnswer := String.mk (jsTrim (line.drop 7)) } }
      else if startsWithL "Explanation:".data line then
        .ok { st with current := some { q with explanation := String.mk (jsTrim (line.drop 12)) } }
      else .ok st

/-- The final validation filter of `parseQuizResponse` (JS truthiness of the
string fields; MCQs additionally need exactly 4 option keys). -/
def validQuestion (q : Question) : Bool :=
  decide (q.questionText ≠ "") && decide (q.correctAnswer ≠ "") &&
  decide (q.explanation ≠ "") &&
  (decide (q.type ≠ "mcq") || ((q.options.getD []).length == 4))

/-- The trimmed nonempty lines fed to the parse loop. -/
def quizLines (s : String) : List (List Char) :=
  ((splitNl s.data).map jsTrim).filter (fun l => decide (0 < l.length))

/-- Error-propagating fold step of the parse loop (a thrown `TypeError`
aborts the whole `try` block). -/
def quizFoldStep (cfg : QuizConfig) (acc : Except Unit PState) (l : List Char) :
    Except Unit PState :=
  match acc with
  | .error e => .error e
  | .ok st => processQuizLine cfg st l

/-- Initial loop state: no questions, `questionNumber = 1`, all counters 0. -/
def initPState : PState := ⟨[], none, 1, 0, 0, 0⟩

/-- `parseQuizResponse(llmResponse, config)`: split into trimmed nonempty
lines, run the line loop (exceptions yield `[]` through the outer `catch`),
append the still-open question, and keep the valid ones. -/
def parseQuizResponse (llmResponse : String) (cfg : QuizConfig) : List Question :=
  match (quizLines llmResponse).foldl (quizFoldStep cfg) (Except.ok initPState) with
  | .error _ => []
  | .ok st => (st.questions ++ st.current.toList).filter validQuestion

/-- The question numbers held by a parse state (pushed questions followed
by the still-open one). -/
def allQN (st : PState) : List Nat :=
  (st.questions ++ st.current.toList).map (fun q => q.questionNumber)

/-- Loop invariant of `parseQuizResponse`: `questionNumber` values are
positive, strictly increasing in push order, and below the next counter
value. -/
def PInv (st : PState) : Prop :=
  1 ≤ st.qnum ∧ List.Pairwise (· < ·) (allQN st) ∧
    ∀ x ∈ allQN st, 1 ≤ x ∧ x < st.qnum

/-! ### `validateQuizConfig` -/

/-- Result record of `validateQuizConfig`. -/
structure ValidationResult where
  valid : Bool
  error : Option String
  deriving DecidableEq

/-- `validateQuizConfig(config)`: note that the count guards are
`!count || count < 0 || count > 20`, so a count of `0` is falsy and
rejected. -/
def validateQuizConfig (c : QuizConfig) : ValidationResult :=
  if jsTrim c.quizName.data = [] then
    ⟨false, some "Quiz name is required"⟩
  else if ¬(c.difficulty = "easy" ∨ c.difficulty = "medium" ∨ c.difficulty = "hard") then
    ⟨false, some "Please select a valid difficulty level"⟩
  else if c.totalMcqs = 0 ∨ c.totalMcqs < 0 ∨ c.totalMcqs > 20 then
    ⟨false, some "MCQ count must be between 0 and 20"⟩
  else if c.totalSaqs = 0 ∨ c.totalSaqs < 0 ∨ c.totalSaqs > 20 then
    ⟨false, some "SAQ count must be between 0 and 20"⟩
  else if c.totalLaqs = 0 ∨ c.totalLaqs < 0 ∨ c.totalLaqs > 20 then
    ⟨false, some "LAQ count must be between 0 and 20"⟩
  else if c.totalMcqs + c.totalSaqs + c.totalLaqs = 0 then
    ⟨false, some "At least one question type must be selected"⟩
  else if c.totalMcqs + c.totalSaqs + c.totalLaqs > 30 then
    ⟨false, some "Total questions cannot exceed 30"⟩
  else ⟨true, none⟩

/-! ### `quizEvaluationService` -/

/-- Hexadecimal digit test (for `parseInt`'s `0x` radix-16 form). -/
def isHexDigit (c : Char) : Bool :=
  c.isDigit || ('a' ≤ c && c ≤ 'f') || ('A' ≤ c && c ≤ 'F')

/-- Value of a hexadecimal digit run. -/
def hexToNat (l : List Char) : Nat :=
  l.foldl (fun n c =>
    16 * n + (if c.isDigit then c.toNat - 48
              else if 'a' ≤ c && c ≤ 'f' then c.toNat - 87
              else c.toNat - 55)) 0

/-- Core of JavaScript `parseInt` after whitespace skipping: optional sign,
optional `0x`/`0X` prefix switching to base 16, then the longest digit
prefix; `none` models `NaN`. -/
def jsParseIntL (l : List Char) : Option Int :=
  let neg : Bool := l.head? == some '-'
  let signed : Bool := neg || (l.head? == some '+')
  let l1 := if signed then l.tail else l
  let isHex : Bool := (l1.head? == some '0') &&
    ((l1.tail.head? == some 'x') || (l1.tail.head? == some 'X'))
  if isHex then
    let d := (l1.drop 2).takeWhile isHexDigit
    if d.isEmpty then none
    else some ((if neg then -1 else 1) * (hexToNat d : Int))
  else
    let d := l1.takeWhile Char.isDigit
    if d.isEmpty then none
    else some ((if neg then -1 else 1) * (digitsToNat d : Int))

/-- JavaScript `parseInt(s)` (radix argument omitted). -/
def jsParseInt (s : String) : Option Int := jsParseIntL (s.data.dropWhile isJsWs)

/-- Result record of the evaluators (`similarityScore = none` models `NaN`). -/
structure EvalResult where
  isCorrect : Bool
  marksObtained : Nat
  similarityScore : Option Nat
  deriving DecidableEq

/-- `evaluateMCQ(userAnswer, correctOptionNumber)`: strict equality of
`parseInt(userAnswer)` with the stored option number (`NaN`/`null` are
never equal to anything under `===`). -/
def evaluateMCQ (userAnswer : String) (correctOptionNumber : Option Int) : EvalResult :=
  let c : Bool :=
    match jsParseInt userAnswer, correctOptionNumber with
    | some a, some b => a == b
    | _, _ => false
  ⟨c, if c then 1 else 0, some (if c then 100 else 0)⟩

/-- `evaluateSAQ(userAnswer, modelAnswer, question)`: 90% threshold,
3 marks.  (The question text only feeds the prompt.) -/
def evaluateSAQ (userAnswer modelAnswer : String) (reply : Except Unit String) :
    EvalResult :=
  let r := calculateSimilarityWithLLM userAnswer modelAnswer 90 reply
  ⟨r.isCorrect, if r.isCorrect then 3 else 0, r.similarityScore⟩

/-- `evaluateLAQ(userAnswer, modelAnswer, question)`: 75% threshold,
5 marks. -/
def evaluateLAQ (userAnswer modelAnswer : String) (reply : Except Unit String) :
    EvalResult :=
  let r := calculateSimilarityWithLLM userAnswer modelAnswer 75 reply
  ⟨r.isCorrect, if r.isCorrect then 5 else 0, r.similarityScore⟩

/-- The `questionData` argument of `evaluateAnswer`. -/
structure QuestionData where
  correctAnswer : String
  correctOptionNumber : Option Int
  questionText : String
  deriving DecidableEq

/-- `evaluateAnswer(questionType, userAnswer, questionData)`: dispatch on
the type string; the `default` branch throws, and the surrounding `catch`
resolves with `{isCorrect: false, marksObtained: 0, similarityScore: 0}`. -/
def evaluateAnswer (questionType userAnswer : String) (qd : QuestionData)
    (reply : Except Unit String) : EvalResult :=
  if questionType = "mcq" then evaluateMCQ userAnswer qd.correctOptionNumber
  else if questionType = "saq" then evaluateSAQ userAnswer qd.correctAnswer reply
  else if questionType = "laq" then evaluateLAQ userAnswer qd.correctAnswer reply
  else ⟨false, 0, some 0⟩

/-! ### Persisted quiz status lifecycle

The persisted `quizzes.status` column is written in exactly three places:
`QuizPersistenceService.createQuiz` inserts the row with `status: 'ready'`,
`QuizTaking.loadQuiz` updates to `'in_progress'` when the loaded status is
`'ready'`, and `QuizTaking.handleSubmitTest` updates to `'completed'` on
finalization.  (`'generating'` exists only as the schema default and a
dashboard label.) -/

/-- The four states allowed by the `quizzes.status` CHECK constraint. -/
inductive QuizStatus
  | generating
  | ready
  | inProgress
  | completed
  deriving DecidableEq

/-- Status written by `createQuiz`'s insert. -/
def createQuizStatus : QuizStatus := QuizStatus.ready

/-- Status after `loadQuiz`: `'in_progress'` only when the current status is
`'ready'`, otherwise unchanged. -/
def loadQuizStep (s : QuizStatus) : QuizStatus :=
  if s = QuizStatus.ready then QuizStatus.inProgress else s

/-- A persisted status transition performed by the application code. -/
inductive QuizStep : QuizStatus → QuizStatus → Prop
  | load (s : QuizStatus) : QuizStep s (loadQuizStep s)
  | submit (s : QuizStatus) : QuizStep s QuizStatus.completed

/-- Position of a status along GENERATING → READY → IN_PROGRESS → COMPLETED. -/
def statusRank : QuizStatus → Nat
  | QuizStatus.generating => 0
  | QuizStatus.ready => 1
  | QuizStatus.inProgress => 2
  | QuizStatus.completed => 3

/-! ## Theorems settling the claims -/

/-- C1: evaluation of the code at the claim's exact input.  The option
texts `3`, `4`, `5`, `6` are pure digits, the capture `[^0-9]+?` of the
options regex cannot match them, so no options are parsed, the MCQ fails
the 4-options validation and `parseQuizResponse` returns no questions at
all — not the one parsed question the claim describes.  The
`evaluateMCQ("2", 2)` half of the claim does hold. -/
theorem c1_happy_path_eval :
    parseQuizResponse
      "MCQ: 2+2?\nOptions: 1) 3 2) 4 3) 5 4) 6\nAnswer: 2\nExplanation: basic addition"
      ⟨"Quiz", "easy", 1, 0, 0⟩ = [] ∧
    evaluateMCQ "2" (some 2) = ⟨true, 1, some 100⟩ := by decide

/-- C4: evaluation of the code at the failing inputs.  When both token
lists are empty (empty strings, or no token longer than 2 characters) the
code computes `Math.round(0/0 * 100) = NaN` (modelled `none`), not the
finite score `0` the claim promises; `isCorrect` is `false` and nothing is
thrown. -/
theorem c4_nan_eval :
    calculateBasicSimilarity "" "" 90 = ⟨false, none⟩ ∧
    calculateBasicSimilarity "ab x" "cd y" 75 = ⟨false, none⟩ := by decide

/-- C7: evaluation at the failing input.  With the reply
`"Similarity Score: 95\nIs Correct: NO"` and threshold 90, the loop sets
`isCorrect = false` from the explicit `NO`, but the derivation
`if (similarityScore > 0 && !isCorrect)` cannot distinguish an explicit
`NO` from the default, so it overrides the verdict with `95 ≥ 90 = true`.
The score-equal-to-threshold case without a verdict line does yield `true`,
and an explicit `NO` survives only when the score is below the threshold. -/
theorem c7_verdict_override_eval :
    parseSimilarityResponse "Similarity Score: 95\nIs Correct: NO" 90 = ⟨true, 95⟩ ∧
    parseSimilarityResponse "Similarity Score: 90" 90 = ⟨true, 90⟩ ∧
    parseSimilarityResponse "Similarity Score: 50\nIs Correct: NO" 90 = ⟨false, 50⟩ := by
  decide

/-- C2 counterexample: the configuration `{quizName:"My Quiz",
difficulty:"easy", totalMcqs:0, totalSaqs:5, totalLaqs:0}` satisfies the
claim's acceptance condition (each count ≥ 0, sum 5 within [1,30]) but is
rejected, because the guard `!totalMcqs || totalMcqs < 0 || totalMcqs > 20`
treats the falsy count `0` as missing. -/
theorem c2_counterexample :
    validateQuizConfig ⟨"My Quiz", "easy", 0, 5, 0⟩ =
      ⟨false, some "MCQ count must be between 0 and 20"⟩ ∧
    ((0 : Int) ≤ 0 ∧ (0 : Int) ≤ 5 ∧ (0 : Int) ≤ 0 ∧
      (1 : Int) ≤ 0 + 5 + 0 ∧ (0 : Int) + 5 + 0 ≤ 30) := by decide

/-- C5 amended, proved on the claim's scenario: three `MCQ:` blocks with
`totalMcqs = 2` yield exactly two MCQs, but the third block's `Options:`,
`Answer:` and `Explanation:` lines are applied to the still-open second
question, overwriting its fields — the second returned question carries the
third block's options `p q r s`, option number 3, answer `r` and
explanation `e3`. -/
theorem c5_third_block_overwrites :
    parseQuizResponse
      "MCQ: Q1\nOptions: 1) a 2) b 3) c 4) d\nAnswer: 1\nExplanation: e1\nMCQ: Q2\nOptions: 1) a 2) b 3) c 4) d\nAnswer: 2\nExplanation: e2\nMCQ: Q3\nOptions: 1) p 2) q 3) r 4) s\nAnswer: 3\nExplanation: e3"
      ⟨"Quiz", "easy", 2, 0, 0⟩ =
    [⟨"mcq", 1, "Q1", some [("1", "a"), ("2", "b"), ("3", "c"), ("4", "d")],
       "a", some 1, "e1", 1⟩,
     ⟨"mcq", 2, "Q2", some [("1", "p"), ("2", "q"), ("3", "r"), ("4", "s")],
       "r", some 3, "e3", 1⟩] := by decide

/-- C5 counterexample: in the same scenario the explanations of the two
returned questions are `e1` and `e3`, not the `e1` and `e2` of their own
blocks, refuting the claim that the two questions carry the fields of their
own blocks. -/
theorem c5_counterexample :
    ((parseQuizResponse
      "MCQ: Q1\nOptions: 1) a 2) b 3) c 4) d\nAnswer: 1\nExplanation: e1\nMCQ: Q2\nOptions: 1) a 2) b 3) c 4) d\nAnswer: 2\nExplanation: e2\nMCQ: Q3\nOptions: 1) p 2) q 3) r 4) s\nAnswer: 3\nExplanation: e3"
      ⟨"Quiz", "easy", 2, 0, 0⟩).map (fun q => q.explanation) = ["e1", "e3"]) ∧
    ["e1", "e3"] ≠ ["e1", "e2"] := by decide

/-- C8 counterexample: when the first block lacks an `Explanation:` line it
is dropped by the validation filter, and the single returned question
carries `questionNumber = 2` — not the gap-free `1, …, n` the claim
states. -/
theorem c8_counterexample :
    ((parseQuizResponse
      "MCQ: A\nOptions: 1) a 2) b 3) c 4) d\nAnswer: 1\nMCQ: B\nOptions: 1) a 2) b 3) c 4) d\nAnswer: 2\nExplanation: fine"
      ⟨"Quiz", "easy", 2, 0, 0⟩).map (fun q => q.questionNumber) = [2]) ∧
    ((parseQuizResponse
      "MCQ: A\nOptions: 1) a 2) b 3) c 4) d\nAnswer: 1\nMCQ: B\nOptions: 1) a 2) b 3) c 4) d\nAnswer: 2\nExplanation: fine"
      ⟨"Quiz", "easy", 2, 0, 0⟩).map (fun q => q.questionNumber) ≠
      List.range' 1 (parseQuizResponse
      "MCQ: A\nOptions: 1) a 2) b 3) c 4) d\nAnswer: 1\nMCQ: B\nOptions: 1) a 2) b 3) c 4) d\nAnswer: 2\nExplanation: fine"
      ⟨"Quiz", "easy", 2, 0, 0⟩).length) := by decide

/-- C9 counterexample: `" 2"` does not begin with a digit, yet
`parseInt(" 2") = 2` after whitespace skipping, so `evaluateMCQ(" 2", 2)`
is correct — refuting "any userAnswer without a leading digit yields
isCorrect:false". -/
theorem c9_counterexample :
    evaluateMCQ " 2" (some 2) = ⟨true, 1, some 100⟩ ∧
    (" 2" : String).data.head? = some ' ' ∧ (' ').isDigit = false := by decide

/-- C6 counterexample: `createQuiz` inserts the quiz row with
`status: 'ready'` — quiz records are never persisted in the GENERATING
state. -/
theorem c6_counterexample :
    createQuizStatus = QuizStatus.ready ∧ createQuizStatus ≠ QuizStatus.generating := by
  decide

/-- C6 amended: quiz rows are created directly in READY (generation
completes in memory before persistence), and every persisted status write
moves forward along GENERATING < READY < IN_PROGRESS < COMPLETED — the
load transition fires only from READY, finalization writes COMPLETED —
so there are no back-transitions. -/
theorem c6_forward_only :
    createQuizStatus = QuizStatus.ready ∧
    ∀ s s' : QuizStatus, QuizStep s s' → statusRank s ≤ statusRank s' := by
  refine ⟨rfl, ?_⟩
  intro s s' h
  cases h with
  | load => cases s <;> decide
  | submit => cases s <;> decide

/-- C6 witness: the READY → IN_PROGRESS load transition is a forward move. -/
theorem c6_witness :
    statusRank QuizStatus.ready ≤ statusRank QuizStatus.inProgress :=
  c6_forward_only.2 QuizStatus.ready QuizStatus.inProgress
    (QuizStep.load QuizStatus.ready)

/-- C10: for a question type outside `{'mcq','saq','laq'}` the `default`
branch throws, the surrounding `catch` swallows the error, and the caller
receives `{isCorrect: false, marksObtained: 0, similarityScore: 0}`. -/
theorem c10_unknown_type :
    ∀ (t userAnswer : String) (qd : QuestionData) (reply : Except Unit String),
      t ≠ "mcq" → t ≠ "saq" → t ≠ "laq" →
      evaluateAnswer t userAnswer qd reply = ⟨false, 0, some 0⟩ := by
  intro t ua qd reply h1 h2 h3
  simp [evaluateAnswer, h1, h2, h3]

/-- C10 witness: the unknown type `"essay"` resolves with the zero result. -/
theorem c10_witness :
    evaluateAnswer "essay" "anything" ⟨"ans", none, "q"⟩ (Except.error ()) =
      ⟨false, 0, some 0⟩ :=
  c10_unknown_type "essay" "anything" ⟨"ans", none, "q"⟩ (Except.error ())
    (by decide) (by decide) (by decide)

/-- A line that matches neither the score nor the verdict pattern leaves the
similarity parse state unchanged, so a fold over such lines is the identity. -/
theorem simFold_no_match (lines : List (List Char))
    (h : ∀ l ∈ lines, simScoreLine l = none ∧ simVerdictLine l = none) :
    ∀ st : SimParse, lines.foldl processSimLine st = st := by
  induction lines with
  | nil => intro st; rfl
  | cons l t ih =>
    intro st
    have hl := h l (List.mem_cons_self l t)
    have hstep : processSimLine st l = st := by
      simp [processSimLine, hl.1, hl.2]
    rw [List.foldl_cons, hstep]
    exact ih (fun x hx => h x (List.mem_cons_of_mem l hx)) st

/-- C3 amended: a reply in which no line matches `Similarity Score: <num>`
and no line matches `Is Correct: YES|NO` does **not** trigger the lexical
fallback — `parseSimilarityResponse` just returns its defaults, so the
evaluation yields `{isCorrect: false, similarityScore: 0}`; the lexical
fallback `calculateBasicSimilarity` runs only when the completion-service
call itself fails. -/
theorem c3_malformed_defaults :
    (∀ (userAnswer modelAnswer : String) (threshold : Nat) (reply : String),
      (∀ l ∈ (splitNl reply.data).map jsTrim,
        simScoreLine l = none ∧ simVerdictLine l = none) →
      calculateSimilarityWithLLM userAnswer modelAnswer threshold (Except.ok reply) =
        ⟨false, some 0⟩) ∧
    (∀ (userAnswer modelAnswer : String) (threshold : Nat),
      calculateSimilarityWithLLM userAnswer modelAnswer threshold (Except.error ()) =
        calculateBasicSimilarity userAnswer modelAnswer threshold) := by
  constructor
  · intro ua ma θ reply h
    have hfold := simFold_no_match ((splitNl reply.data).map jsTrim) h ⟨false, 0⟩
    simp [calculateSimilarityWithLLM, parseSimilarityResponse, hfold]
  · intro ua ma θ
    rfl

/-- C3 witness: the malformed reply `"hello"` yields the parse defaults. -/
theorem c3_witness :
    calculateSimilarityWithLLM "alpha beta" "alpha beta" 90 (Except.ok "hello") =
      ⟨false, some 0⟩ :=
  c3_malformed_defaults.1 "alpha beta" "alpha beta" 90 "hello" (by decide)

/-- C3 counterexample: the reply `"hello"` matches neither pattern, yet the
evaluation returns `{false, 0}` while the lexical fallback on the same
answers returns `{true, 100}` — the two differ, refuting the claim that the
malformed-judgment result equals the fallback result. -/
theorem c3_counterexample :
    (((splitNl ("hello" : String).data).map jsTrim).all
      (fun l => (simScoreLine l).isNone && (simVerdictLine l).isNone) = true) ∧
    calculateSimilarityWithLLM "alpha beta" "alpha beta" 90 (Except.ok "hello") ≠
      calculateBasicSimilarity "alpha beta" "alpha beta" 90 := by decide

/-- C2 amended: under a nonempty quiz name and a valid difficulty,
`validateQuizConfig` accepts exactly the configurations whose three counts
are each between 1 and 20 (a count of 0 is rejected by the falsy
`!count` guard) and whose total is at most 30; the check is a pure local
computation. -/
theorem c2_valid_iff :
    ∀ c : QuizConfig,
      jsTrim c.quizName.data ≠ [] →
      (c.difficulty = "easy" ∨ c.difficulty = "medium" ∨ c.difficulty = "hard") →
      ((validateQuizConfig c).valid = true ↔
        (1 ≤ c.totalMcqs ∧ c.totalMcqs ≤ 20 ∧
         1 ≤ c.totalSaqs ∧ c.totalSaqs ≤ 20 ∧
         1 ≤ c.totalLaqs ∧ c.totalLaqs ≤ 20 ∧
         c.totalMcqs + c.totalSaqs + c.totalLaqs ≤ 30)) := by
  intro c h1 h2
  unfold validateQuizConfig
  rw [if_neg h1, if_neg (not_not_intro h2)]
  split_ifs with h3 h4 h5 h6 h7 <;> simp <;> omega

/-- C2 witness: the configuration (5 MCQs, 3 SAQs, 2 LAQs) is accepted. -/
theorem c2_witness :
    (validateQuizConfig ⟨"My Quiz", "easy", 5, 3, 2⟩).valid = true :=
  (c2_valid_iff ⟨"My Quiz", "easy", 5, 3, 2⟩ (by decide) (by decide)).mpr (by decide)

/-- Every successful parse-loop step either opens a new question — pushing
the current one, numbering the new one with the counter and incrementing
it — or leaves the pushed questions, the counter and the current question's
number unchanged. -/
theorem processQuizLine_shape {cfg : QuizConfig} {st : PState} {line : List Char}
    {st' : PState} (h : processQuizLine cfg st line = Except.ok st') :
    (st'.questions = st.questions ++ st.current.toList ∧
      (∃ q, st'.current = some q ∧ q.questionNumber = st.qnum) ∧
      st'.qnum = st.qnum + 1) ∨
    (st'.questions = st.questions ∧ st'.qnum = st.qnum ∧
      st'.current.map (fun q => q.questionNumber) =
        st.current.map (fun q => q.questionNumber)) := by
  unfold processQuizLine at h
  repeat' split at h
  all_goals
    first
    | (injection h with hh
       subst hh
       exact Or.inl ⟨rfl, ⟨_, rfl, rfl⟩, rfl⟩)
    | (injection h with hh
       subst hh
       exact Or.inr ⟨rfl, rfl, by simp_all⟩)
    | injection h

/-- The parse-loop invariant is preserved by every successful step. -/
theorem PInv_step {cfg : QuizConfig} {st : PState} {line : List Char} {st' : PState}
    (h : processQuizLine cfg st line = Except.ok st') (hi : PInv st) : PInv st' := by
  obtain ⟨h1, h2, h3⟩ := hi
  rcases processQuizLine_shape h with ⟨hq, ⟨q, hc, hn⟩, hqn⟩ | ⟨hq, hqn, hc⟩
  · have hall : allQN st' = allQN st ++ [st.qnum] := by
      simp [allQN, hq, hc, hn]
    refine ⟨by omega, ?_, ?_⟩
    · rw [hall]
      refine List.pairwise_append.mpr ⟨h2, List.pairwise_singleton _ _, ?_⟩
      intro a ha b hb
      rw [List.mem_singleton] at hb
      subst hb
      exact (h3 a ha).2
    · intro x hx
      rw [hall, List.mem_append] at hx
      rcases hx with hx | hx
      · obtain ⟨hx1, hx2⟩ := h3 x hx
        exact ⟨hx1, by omega⟩
      · rw [List.mem_singleton] at hx
        subst hx
        exact ⟨h1, by omega⟩
  · have htl : st'.current.toList.map (fun q => q.questionNumber) =
        st.current.toList.map (fun q => q.questionNumber) := by
      cases hcur : st'.current <;> cases hcur' : st.current <;>
        rw [hcur, hcur'] at hc <;> simp_all
    have hall : allQN st' = allQN st := by
      simp only [allQN, List.map_append, hq, htl]
    rw [PInv, hall, hqn]
    exact ⟨h1, h2, h3⟩

/-- The parse fold keeps an error once raised. -/
theorem quizFold_error (cfg : QuizConfig) (t : List (List Char)) (e : Unit) :
    t.foldl (quizFoldStep cfg) (Except.error e) = Except.error e := by
  induction t with
  | nil => rfl
  | cons l t ih => simpa [quizFoldStep] using ih

/-- The parse-loop invariant holds for every successful fold result. -/
theorem quizFold_inv (cfg : QuizConfig) :
    ∀ (lines : List (List Char)) (acc : PState), PInv acc →
      ∀ st', lines.foldl (quizFoldStep cfg) (Except.ok acc) = Except.ok st' →
        PInv st' := by
  intro lines
  induction lines with
  | nil =>
    intro acc hi st' h
    injection h with hh
    subst hh
    exact hi
  | cons l t ih =>
    intro acc hi st' h
    rw [List.foldl_cons] at h
    cases hstep : processQuizLine cfg acc l with
    | error e =>
      rw [show quizFoldStep cfg (Except.ok acc) l = Except.error e by
            simp [quizFoldStep, hstep],
          quizFold_error] at h
      exact absurd h (by simp)
    | ok st1 =>
      rw [show quizFoldStep cfg (Except.ok acc) l = Except.ok st1 by
            simp [quizFoldStep, hstep]] at h
      exact ih st1 (PInv_step hstep hi) st' h

/-- C8 amended: the `questionNumber` values of the questions returned by
`parseQuizResponse` are positive and strictly increasing in order — they
are the 1-based open-order ordinals, but gaps appear when the validation
filter drops a malformed question, so they need not be exactly `1..n`. -/
theorem c8_numbers_increasing :
    ∀ (llmResponse : String) (cfg : QuizConfig),
      List.Pairwise (· < ·)
        ((parseQuizResponse llmResponse cfg).map (fun q => q.questionNumber)) ∧
      (parseQuizResponse llmResponse cfg).all
        (fun q => decide (1 ≤ q.questionNumber)) = true := by
  intro text cfg
  cases hres : (quizLines text).foldl (quizFoldStep cfg) (Except.ok initPState) with
  | error e =>
    have hre : parseQuizResponse text cfg = [] := by
      unfold parseQuizResponse
      rw [hres]
    simp [hre]
  | ok st =>
    have hre : parseQuizResponse text cfg =
        (st.questions ++ st.current.toList).filter validQuestion := by
      unfold parseQuizResponse
      rw [hres]
    have hinv : PInv st := by
      refine quizFold_inv cfg (quizLines text) initPState ?_ st hres
      refine ⟨le_refl 1, ?_, ?_⟩ <;> simp [allQN, initPState]
    rw [hre]
    constructor
    · have hsub : List.Sublist
          (((st.questions ++ st.current.toList).filter validQuestion).map
            (fun q => q.questionNumber))
          ((st.questions ++ st.current.toList).map (fun q => q.questionNumber)) :=
        (List.filter_sublist _).map _
      exact List.Pairwise.sublist hsub hinv.2.1
    · rw [List.all_eq_true]
      intro q hq
      have hmem : q.questionNumber ∈ allQN st :=
        List.mem_map_of_mem _ (List.mem_of_mem_filter hq)
      exact decide_eq_true (hinv.2.2 _ hmem).1

/-- JS whitespace characters are not digits. -/
theorem ws_not_digit (c : Char) (h : isJsWs c = true) : c.isDigit = false := by
  simp only [isJsWs, Bool.or_eq_true, decide_eq_true_eq] at h
  rcases h with (((((((h | h) | h) | h) | h) | h) | h) | h) <;> subst h <;> decide

/-- Digits are not JS whitespace. -/
theorem digit_not_ws (c : Char) (h : c.isDigit = true) : isJsWs c = false := by
  cases hw : isJsWs c
  · rfl
  · rw [ws_not_digit c hw] at h
    exact absurd h (by decide)

/-- Digits are distinct from the sign and hex-prefix markers. -/
theorem digit_ne_marks (c : Char) (h : c.isDigit = true) :
    c ≠ '-' ∧ c ≠ '+' ∧ c ≠ 'x' ∧ c ≠ 'X' := by
  refine ⟨?_, ?_, ?_, ?_⟩ <;> rintro rfl <;> exact absurd h (by decide)

/-- `takeWhile` captures exactly a satisfying run followed by a
non-satisfying head. -/
theorem takeWhile_all_append (p : Char → Bool) (ds rest : List Char)
    (h1 : ∀ c ∈ ds, p c = true) (h2 : ∀ c, rest.head? = some c → p c = false) :
    (ds ++ rest).takeWhile p = ds := by
  induction ds with
  | nil =>
    cases rest with
    | nil => rfl
    | cons r t => simp [List.takeWhile_cons, h2 r rfl]
  | cons a as ih =>
    simp [List.takeWhile_cons, h1 a (List.mem_cons_self a as),
      ih (fun c hc => h1 c (List.mem_cons_of_mem a hc))]

/-- Core `parseInt` on a digit run followed by a rest whose head is neither
a digit nor a hex marker: the run's value, rest ignored. -/
theorem jsParseIntL_digit_run (ds rest : List Char) (hne : ds ≠ [])
    (hds : ∀ c ∈ ds, c.isDigit = true)
    (hrest : ∀ c, rest.head? = some c → c.isDigit = false ∧ c ≠ 'x' ∧ c ≠ 'X') :
    jsParseIntL (ds ++ rest) = some (digitsToNat ds : Int) := by
  obtain ⟨d, ds', rfl⟩ : ∃ d ds', ds = d :: ds' := by
    cases ds with
    | nil => exact absurd rfl hne
    | cons d ds' => exact ⟨d, ds', rfl⟩
  have hd : d.isDigit = true := hds d (List.mem_cons_self _ _)
  obtain ⟨hm, hp, hx, hX⟩ := digit_ne_marks d hd
  have htake : ((d :: ds') ++ rest).takeWhile Char.isDigit = d :: ds' :=
    takeWhile_all_append Char.isDigit (d :: ds') rest hds
      (fun c hc => (hrest c hc).1)
  have e1 : (some d == some '-') = false := by simp [hm]
  have e2 : (some d == some '+') = false := by simp [hp]
  have e3 : ((ds' ++ rest).head? == some 'x') = false := by
    cases ds' with
    | nil =>
      cases hr : rest.head? with
      | none => simp [hr]
      | some r => simp [hr, (hrest r hr).2.1]
    | cons d2 ds'' =>
      have hd2 : d2.isDigit = true := hds d2 (List.mem_cons_of_mem d (List.mem_cons_self _ _))
      simp [(digit_ne_marks d2 hd2).2.2.1]
  have e4 : ((ds' ++ rest).head? == some 'X') = false := by
    cases ds' with
    | nil =>
      cases hr : rest.head? with
      | none => simp [hr]
      | some r => simp [hr, (hrest r hr).2.2]
    | cons d2 ds'' =>
      have hd2 : d2.isDigit = true := hds d2 (List.mem_cons_of_mem d (List.mem_cons_self _ _))
      simp [(digit_ne_marks d2 hd2).2.2.2]
  have htake' : List.takeWhile Char.isDigit (d :: (ds' ++ rest)) = d :: ds' := by
    simpa only [List.cons_append] using htake
  unfold jsParseIntL
  simp only [List.cons_append, List.head?_cons, List.tail_cons, e1, e2, e3, e4,
    Bool.false_or, Bool.or_false, Bool.and_false, Bool.false_eq_true, if_false,
    htake', List.isEmpty_cons, one_mul]

/-- `parseInt` on a string that starts with a digit run (not of the hex
form) returns the value of that run and ignores everything after it. -/
theorem jsParseInt_digit_run (s : String) (ds rest : List Char)
    (hdata : s.data = ds ++ rest) (hne : ds ≠ [])
    (hds : ∀ c ∈ ds, c.isDigit = true)
    (hrest : ∀ c, rest.head? = some c → c.isDigit = false ∧ c ≠ 'x' ∧ c ≠ 'X') :
    jsParseInt s = some (digitsToNat ds : Int) := by
  obtain ⟨d, ds', rfl⟩ : ∃ d ds', ds = d :: ds' := by
    cases ds with
    | nil => exact absurd rfl hne
    | cons d ds' => exact ⟨d, ds', rfl⟩
  have hd : d.isDigit = true := hds d (List.mem_cons_self _ _)
  have hdrop : ((d :: ds') ++ rest).dropWhile isJsWs = (d :: ds') ++ rest := by
    simp [List.dropWhile_cons, digit_not_ws d hd]
  unfold jsParseInt
  rw [hdata, hdrop]
  exact jsParseIntL_digit_run (d :: ds') rest hne hds hrest

/-- C9 amended: `evaluateMCQ(userAnswer, n)` is correct exactly when JS
`parseInt(userAnswer)` yields `n` — so trailing text after a leading digit
run is ignored (`"2) four"` counts as option 2), but `parseInt` also skips
leading whitespace and accepts a sign or `0x` prefix, so answers without a
leading digit are not always wrong; answers with no parseable number give
`isCorrect:false`, and the marks are always 0 or 1. -/
theorem c9_mcq_tolerance :
    (∀ (userAnswer : String) (n : Int),
      ((evaluateMCQ userAnswer (some n)).isCorrect = true ↔
        jsParseInt userAnswer = some n) ∧
      ((evaluateMCQ userAnswer (some n)).marksObtained = 0 ∨
        (evaluateMCQ userAnswer (some n)).marksObtained = 1)) ∧
    (∀ (s : String) (ds rest : List Char) (n : Int),
      s.data = ds ++ rest → ds ≠ [] → (∀ c ∈ ds, c.isDigit = true) →
      (∀ c, rest.head? = some c → c.isDigit = false ∧ c ≠ 'x' ∧ c ≠ 'X') →
      ((evaluateMCQ s (some n)).isCorrect = true ↔ (digitsToNat ds : Int) = n)) := by
  constructor
  · intro ua n
    constructor
    · cases hp : jsParseInt ua with
      | none => simp [evaluateMCQ, hp]
      | some a => simp [evaluateMCQ, hp]
    · cases hp : jsParseInt ua with
      | none => simp [evaluateMCQ, hp]
      | some a =>
        cases hb : (a == n) <;> simp [evaluateMCQ, hp, hb]
  · intro s ds rest n h1 h2 h3 h4
    have hpi := jsParseInt_digit_run s ds rest h1 h2 h3 h4
    simp [evaluateMCQ, hpi]

/-- C9 witness: `"2) four"` parses to option 2 and is marked correct
against `correctOptionNumber = 2`. -/
theorem c9_witness :
    (evaluateMCQ "2) four" (some 2)).isCorrect = true :=
  (c9_mcq_tolerance.2 "2) four" ['2'] [')', ' ', 'f', 'o', 'u', 'r'] 2
    (by decide) (by decide) (by decide)
    (by intro c hc; cases hc; decide)).mpr (by decide)

end StudyBase
